import Mathlib

/-!
Verification of the QR-login session state machine and the health-suggestion
CRUD layer of `src/main.py` (FastAPI application).

The mutable `qr_sessions` dict is modelled as an association list from session
id to a `Session` record; every handler becomes a pure function taking the
current clock value `now : Nat` (wall-clock instants; `datetime.now()` at each
call site) and the store, and returning its HTTP-visible outcome together with
the updated store.  Dict keys that the Python code reads with a default
(`session.get("is_confirmed", False)`, `session.get("confirmed_at", ...)`) are
modelled as fields initialised to that default at session creation.  The
sqlite `health_suggestions` table is a `List Suggestion`; SQL row ids are
passed in as parameters (sqlite assigns them).  File-system side effects
(saving QR images and uploads, best-effort deletion of old images) are out of
scope per the specification and are not modelled beyond the URL strings the
handlers compute.
-/

deriving instance DecidableEq for Except

namespace SX

/-- Identity payload attached to a session.  The source stores one of three
distinct dict shapes in `session["user_info"]`: the shape written by
`POST /api/qr-login/bind` (user_id / user_name / user_token), the shape
written by `POST /api/qr-login/confirm` (doctor_id / login_time), and the
shape synthesised by the `GET /confirm-login` page. -/
inductive UserInfo where
  | bindInfo (user_id user_name user_token : String)
  | confirmInfo (doctor_id : String) (login_time : Nat)
  | pageInfo (user_id user_name user_token : String)
deriving DecidableEq, Repr

/-- One record of the in-memory `qr_sessions` dict.  `is_confirmed` and
`confirmed_at` are absent keys until `confirm` writes them; the code reads
them with defaults `False` / `datetime.now()`, so they are modelled as
`false` / `none` from creation. -/
structure Session where
  created_at : Nat
  expires_at : Nat
  is_bound : Bool
  is_confirmed : Bool
  confirmed_at : Option Nat
  user_info : Option UserInfo
deriving DecidableEq, Repr

/-- The `qr_sessions` dict: association list keyed by session id. -/
abbrev Store := List (String × Session)

/-- Dict lookup (`sid in qr_sessions` / `qr_sessions[sid]`). -/
def find? : Store → String → Option Session
  | [], _ => none
  | (k, v) :: rest, sid => if k = sid then some v else find? rest sid

/-- Dict write `qr_sessions[sid] = s` (replaces in place, keeps position). -/
def insert : Store → String → Session → Store
  | [], sid, s => [(sid, s)]
  | (k, v) :: rest, sid, s =>
      if k = sid then (sid, s) :: rest else (k, v) :: insert rest sid s

/-- Dict deletion `del qr_sessions[sid]`. -/
def erase : Store → String → Store
  | [], _ => []
  | (k, v) :: rest, sid =>
      if k = sid then erase rest sid else (k, v) :: erase rest sid

/-- Session lifetime: `timedelta(minutes=5)`, measured here in seconds. -/
def sessionTTL : Nat := 300

/-- Handler `POST /api/qr-login/generate` (store effect only): inserts a fresh pending
session expiring at `now + 5min`.  The QR payload / image the endpoint also
returns involves no session state and is omitted. -/
def generate_qr_code (now : Nat) (sid : String) (st : Store) : Store :=
  insert st sid
    { created_at := now, expires_at := now + sessionTTL,
      is_bound := false, is_confirmed := false,
      confirmed_at := none, user_info := none }

/-- Reading `session.get("user_info", \x7b\x7d).get("doctor_id", "")`.  When
`user_info` is a dict without a `doctor_id` key the Python `.get` yields
`""`; when it is `None` the Python expression would fault, but that state is
unreachable on the paths that read it (`is_confirmed` is only ever set
together with a `confirmInfo` payload), and the default `""` is used here. -/
def doctorIdOf : Option UserInfo → String
  | some (.confirmInfo d _) => d
  | _ => ""

/-- Outcome of `GET /api/qr-login/check/\x7buuid\x7d`. -/
inductive CheckResult where
  | notFound
  | expired
  | success (doctor_id : String) (confirmed_at : Nat)
  | waiting
deriving DecidableEq, Repr

/-- Handler `GET /api/qr-login/check/\x7buuid\x7d` — the front-end polling endpoint:
404 if absent, lazily evicts and answers 410 if strictly past expiry,
otherwise `success` (with doctor id and confirmation time) when
`is_confirmed` is set and `waiting` when not. -/
def check_qr_login (now : Nat) (st : Store) (uuid : String) :
    CheckResult × Store :=
  match find? st uuid with
  | none => (.notFound, st)
  | some s =>
      if s.expires_at < now then (.expired, erase st uuid)
      else if s.is_confirmed then
        (.success (doctorIdOf s.user_info) (s.confirmed_at.getD now), st)
      else (.waiting, st)

/-- Outcome of `GET /api/qr-login/status`. -/
inductive StatusResult where
  | missingParam
  | notFound
  | expired
  | confirmed (confirmed_at : Nat)
  | waiting
deriving DecidableEq, Repr

/-- Handler `GET /api/qr-login/status?loginId=` — the web polling endpoint: 400 when
`loginId` is absent or empty (Python falsiness), then the same 404 / lazy
410-eviction / `is_confirmed` branching as `check`, but reporting only the
confirmation timestamp, not the identity. -/
def get_qr_login_status (now : Nat) (st : Store) (loginId : Option String) :
    StatusResult × Store :=
  match loginId with
  | none => (.missingParam, st)
  | some lid =>
      if lid = "" then (.missingParam, st)
      else
        match find? st lid with
        | none => (.notFound, st)
        | some s =>
            if s.expires_at < now then (.expired, erase st lid)
            else if s.is_confirmed then
              (.confirmed (s.confirmed_at.getD now), st)
            else (.waiting, st)

/-- Outcome of `POST /api/qr-login/bind`. -/
inductive BindResult where
  | notFound
  | expired
  | alreadyBound
  | success
deriving DecidableEq, Repr

/-- Handler `POST /api/qr-login/bind`: 404 if absent, lazy 410-eviction if strictly
past expiry, 400 if `is_bound` already set; otherwise sets `is_bound` and
attaches the supplied identity.  The best-effort mirror into the sqlite
`user_sessions` table is durability plumbing outside the session state
machine and is not modelled. -/
def bind_qr_login (now : Nat) (st : Store)
    (session_id user_id user_name user_token : String) :
    BindResult × Store :=
  match find? st session_id with
  | none => (.notFound, st)
  | some s =>
      if s.expires_at < now then (.expired, erase st session_id)
      else if s.is_bound then (.alreadyBound, st)
      else
        (.success,
         insert st session_id
           { s with is_bound := true,
                    user_info := some (.bindInfo user_id user_name user_token) })

/-- Outcome of `POST /api/qr-login/confirm`. -/
inductive ConfirmResult where
  | notFound
  | expired
  | success (doctor_id : String)
deriving DecidableEq, Repr

/-- Handler `POST /api/qr-login/confirm` (scanning-device path): 404 if absent, lazy
410-eviction if strictly past expiry; otherwise unconditionally sets
`is_confirmed`, `confirmed_at := now`, `is_bound`, and overwrites
`user_info` with the doctor payload of this call. -/
def confirm_qr_login (now : Nat) (st : Store) (uuid doctor_id : String) :
    ConfirmResult × Store :=
  match find? st uuid with
  | none => (.notFound, st)
  | some s =>
      if s.expires_at < now then (.expired, erase st uuid)
      else
        (.success doctor_id,
         insert st uuid
           { s with is_confirmed := true, confirmed_at := some now,
                    is_bound := true,
                    user_info := some (.confirmInfo doctor_id now) })

/-- Outcome of `GET /confirm-login`. -/
inductive PageResult where
  | errorMissing
  | errorExpired
  | confirmedPage
deriving DecidableEq, Repr

/-- Handler `GET /confirm-login?loginId=` (the page a phone opens after scanning):
error if absent, lazy eviction if strictly past expiry; otherwise sets
`is_bound` and synthesises an identity from the login id (`loginId[:8]`). -/
def confirm_login_page (now : Nat) (st : Store) (loginId : String) :
    PageResult × Store :=
  match find? st loginId with
  | none => (.errorMissing, st)
  | some s =>
      if s.expires_at < now then (.errorExpired, erase st loginId)
      else
        (.confirmedPage,
         insert st loginId
           { s with is_bound := true,
                    user_info := some (.pageInfo
                      ("user_" ++ loginId.take 8)
                      ("医生_" ++ loginId.take 8)
                      ("token_" ++ loginId)) })

/-- Resolver `get_user_from_session`: the authorization resolver.  Note that it takes
no clock — the source performs no expiry check here: it answers `None`
exactly when the session is absent, not bound, or has a falsy (`None`)
`user_info`, and otherwise returns the attached identity. -/
def get_user_from_session (st : Store) (session_id : String) :
    Option UserInfo :=
  match find? st session_id with
  | none => none
  | some s =>
      if !s.is_bound || s.user_info.isNone then none
      else s.user_info

/-- Resolver `get_user_from_request`: reads the `X-Session-ID` header (absent or empty
is falsy, giving `None`) and defers to `get_user_from_session`. -/
def get_user_from_request (st : Store) (header : Option String) :
    Option UserInfo :=
  match header with
  | none => none
  | some sid => if sid = "" then none else get_user_from_session st sid

/-! ### Suggestion repository (sqlite `health_suggestions` table) -/

/-- Python whitespace test: the character set that `str.strip()` removes
(ASCII whitespace, the C1 separator controls, and the Unicode space
characters). -/
def pyIsSpace (c : Char) : Bool :=
  let n := c.toNat
  n = 0x20 || (0x09 ≤ n && n ≤ 0x0d) || (0x1c ≤ n && n ≤ 0x1f) ||
  n = 0x85 || n = 0xa0 || n = 0x1680 || (0x2000 ≤ n && n ≤ 0x200a) ||
  n = 0x2028 || n = 0x2029 || n = 0x202f || n = 0x205f || n = 0x3000

/-- Python `str.strip()`: drops leading and trailing whitespace. -/
def pyStrip (s : String) : String :=
  String.mk (((s.data.dropWhile pyIsSpace).reverse.dropWhile pyIsSpace).reverse)

/-- One row of the `health_suggestions` table (`tag`, `image_url`, `user_id`
are nullable columns). -/
structure Suggestion where
  id : Nat
  title : String
  content : String
  author : String
  tag : Option String
  image_url : Option String
  publish_time : String
  user_id : Option String
  user_ip : String
deriving DecidableEq, Repr

/-- An uploaded file as the handlers see it: declared MIME type, size when
the framework knows it (`image.size` may be `None`), and client filename. -/
structure ImageFile where
  content_type : String
  size : Option Nat
  filename : Option String
deriving DecidableEq, Repr

/-- Extension part of `os.path.splitext(f)` — the suffix from the last dot,
empty when there is none.  (The splitext special case for a leading-dot-only
basename is not reproduced; no claim touches it.) -/
def splitextExt (f : String) : String :=
  if f.data.contains '.' then
    String.mk ('.' :: (f.data.reverse.takeWhile (fun c => c ≠ '.')).reverse)
  else ""

/-- Translation of `os.path.splitext(image.filename)[1] if image.filename
else ".jpg"` (both `None` and `""` are falsy). -/
def fileExt : Option String → String
  | none => ".jpg"
  | some f => if f = "" then ".jpg" else splitextExt f

/-- Translation of `image.content_type.startswith('image/')`. -/
def startsWithImage (ct : String) : Bool :=
  ct.data.take 6 = "image/".data

/-- Lookup of the dict key `user_info["user_id"]`: the bind and page payloads
carry it; the confirm payload does not, so the subscript raises `KeyError`
in Python (modelled as `none`; callers turn it into a 500). -/
def userIdOf : UserInfo → Option String
  | .bindInfo uid _ _ => some uid
  | .pageInfo uid _ _ => some uid
  | .confirmInfo _ _ => none

/-- Image validation inside `create_health_suggestion`: 400 unless the
declared type starts with `image/`, 413 when a known size exceeds 2MB
(create uses the 2MB limit, not upload-image's 10MB); otherwise the saved
upload URL. -/
def createImageCheck (timestamp : String) :
    Option ImageFile → Except Nat (Option String)
  | none => .ok none
  | some img =>
      if !startsWithImage img.content_type then .error 400
      else if (match img.size with
               | some n => decide (2 * 1024 * 1024 < n)
               | none => false) then .error 413
      else .ok (some ("/uploads/health_suggestion_" ++ timestamp
                        ++ fileExt img.filename))

/-- Handler `POST /api/health-suggestions`: 401 for an anonymous caller, 400
for a blank (empty or whitespace-only) title / content / author before any
insertion, then image validation, then the row insert with stripped fields,
owner stamped from the session identity, and the sqlite-assigned id
(`newId`).  A confirm-shaped identity has no `user_id` key: the `KeyError`
is swallowed by the handler's broad `except` into a 500, inserting
nothing. -/
def create_health_suggestion (db : List Suggestion) (user : Option UserInfo)
    (title content author : String) (tag : Option String)
    (image : Option ImageFile) (newId : Nat)
    (publish_time timestamp client_ip : String) :
    Except Nat Suggestion × List Suggestion :=
  match user with
  | none => (.error 401, db)
  | some u =>
      if title = "" || pyStrip title = "" then (.error 400, db)
      else if content = "" || pyStrip content = "" then (.error 400, db)
      else if author = "" || pyStrip author = "" then (.error 400, db)
      else
        match createImageCheck timestamp image with
        | .error e => (.error e, db)
        | .ok image_url =>
            match userIdOf u with
            | none => (.error 500, db)
            | some uid =>
                let row : Suggestion :=
                  { id := newId, title := pyStrip title,
                    content := pyStrip content, author := pyStrip author,
                    tag := match tag with
                           | none => none
                           | some t => if t = "" then none else some (pyStrip t),
                    image_url := image_url, publish_time := publish_time,
                    user_id := some uid, user_ip := client_ip }
                (.ok row, db ++ [row])

/-- Replacement upload URL computed by the update handler when a new image
is supplied (update performs no type or size validation on it). -/
def updateImageUrl (timestamp : String) (suggestion_id : Nat)
    (img : ImageFile) : String :=
  "/uploads/health_suggestion_" ++ timestamp ++ "_"
    ++ toString suggestion_id ++ fileExt img.filename

/-- Handler `PUT /api/health-suggestions/\x7bsuggestion_id\x7d`: 401 for an
anonymous caller; 404 when no row has the id; 500 on the `KeyError` for a
confirm-shaped identity; 403 when the caller's `user_id` differs from the
row's owner, leaving the table untouched; otherwise the SQL UPDATE sets
title, content, author, tag, image_url and publish_time on the matching
rows — never `user_id` or `user_ip` — and the handler echoes a response row
rebuilt from the request.  Old-image deletion on disk is best-effort and
not modelled. -/
def update_health_suggestion (db : List Suggestion) (user : Option UserInfo)
    (suggestion_id : Nat) (title content author : String)
    (tag : Option String) (image : Option ImageFile)
    (publish_time timestamp client_ip : String) :
    Except Nat Suggestion × List Suggestion :=
  match user with
  | none => (.error 401, db)
  | some u =>
      match db.find? (fun r => r.id = suggestion_id) with
      | none => (.error 404, db)
      | some row =>
          match userIdOf u with
          | none => (.error 500, db)
          | some uid =>
              if some uid ≠ row.user_id then (.error 403, db)
              else
                let image_url' :=
                  match image with
                  | none => row.image_url
                  | some img => some (updateImageUrl timestamp suggestion_id img)
                let db' := db.map (fun r =>
                  if r.id = suggestion_id then
                    { r with title := title, content := content,
                             author := author, tag := tag,
                             image_url := image_url',
                             publish_time := publish_time }
                  else r)
                (.ok { id := suggestion_id, title := title, content := content,
                       author := author, tag := tag, image_url := image_url',
                       publish_time := publish_time, user_id := some uid,
                       user_ip := client_ip }, db')

/-- Handler `DELETE /api/health-suggestions/\x7bsuggestion_id\x7d`: 401 /
404 / 500 / 403 as in update; otherwise the SQL DELETE removes the matching
rows (image-file removal is best-effort and not modelled). -/
def delete_health_suggestion (db : List Suggestion) (user : Option UserInfo)
    (suggestion_id : Nat) : Except Nat Unit × List Suggestion :=
  match user with
  | none => (.error 401, db)
  | some u =>
      match db.find? (fun r => r.id = suggestion_id) with
      | none => (.error 404, db)
      | some row =>
          match userIdOf u with
          | none => (.error 500, db)
          | some uid =>
              if some uid ≠ row.user_id then (.error 403, db)
              else (.ok (), db.filter (fun r => r.id ≠ suggestion_id))

/-! ### Search (SQL `LIKE '%keyword%'`) -/

/-- ASCII case folding, as sqlite's default `LIKE` applies it. -/
def foldAscii (c : Char) : Char :=
  if 'A' ≤ c && c ≤ 'Z' then Char.ofNat (c.toNat + 32) else c

/-- Sqlite `LIKE` pattern matching (no ESCAPE clause): `%` matches any run
of characters, `_` any single character, and other characters match up to
ASCII case.  Structural on the pattern: the `%` case tries every split of
the remaining text. -/
def likeMatch : List Char → List Char → Bool
  | [], s => s.isEmpty
  | '%' :: p, s => (List.range (s.length + 1)).any (fun i => likeMatch p (s.drop i))
  | '_' :: _, [] => false
  | '_' :: p, _ :: s => likeMatch p s
  | _ :: _, [] => false
  | c :: p, d :: s => (foldAscii c = foldAscii d) && likeMatch p s

/-- Test of `field LIKE '%keyword%'` for a non-NULL field. -/
def likeSub (keyword field : String) : Bool :=
  likeMatch ('%' :: (keyword.data ++ ['%'])) field.data

/-- WHERE clause of the search query: any of title, content, author or tag
LIKE-matches; a NULL tag never matches (SQL three-valued logic collapses to
false under the ORs). -/
def rowMatches (kw : String) (r : Suggestion) : Bool :=
  likeSub kw r.title || likeSub kw r.content || likeSub kw r.author ||
    (match r.tag with | none => false | some t => likeSub kw t)

/-- Row order `ORDER BY id DESC` as a relation: `a` may precede `b` when
`b.id ≤ a.id`. -/
def newerFirst (a b : Suggestion) : Prop := b.id ≤ a.id

instance : DecidableRel newerFirst := fun a b => Nat.decLe b.id a.id

instance : IsTotal Suggestion newerFirst :=
  ⟨fun a b => Nat.le_total b.id a.id⟩

instance : IsTrans Suggestion newerFirst :=
  ⟨fun _ _ _ hab hbc => Nat.le_trans hbc hab⟩

/-- Handler `GET /api/health-suggestions/search/\x7bkeyword\x7d`: the rows
whose WHERE clause holds, ordered by id descending. -/
def search_health_suggestions (db : List Suggestion) (kw : String) :
    List Suggestion :=
  List.insertionSort newerFirst (db.filter (rowMatches kw))

/-- Spec-side definition, for the refinement comparison in claim C9: the
keyword occurs literally (case-sensitively) as a contiguous substring of
the field. -/
def substrOccurs (kw s : String) : Bool :=
  (List.range (s.data.length + 1)).any
    (fun i => ((s.data.drop i).take kw.data.length) = kw.data)

/-! ### Standalone image upload -/

/-- Body of `upload_image` before exception handling: its own raises are 400
for a non-image declared type and 413 for a known size above 10MB; success
returns the upload URL. -/
def upload_image_body (content_type : String) (size : Option Nat)
    (filename : Option String) (timestamp : String) : Except Nat String :=
  if !startsWithImage content_type then .error 400
  else if (match size with
           | some n => decide (10 * 1024 * 1024 < n)
           | none => false) then .error 413
  else .ok ("/uploads/upload_" ++ timestamp ++ fileExt filename)

/-- Handler `POST /api/upload-image` as the caller observes it: the body
runs inside `try ... except Exception`, and `HTTPException` is an
`Exception` subclass, so the handler's own 400/413 raises are caught and
re-raised as 500 — every error surfaces as 500. -/
def upload_image (content_type : String) (size : Option Nat)
    (filename : Option String) (timestamp : String) : Except Nat String :=
  match upload_image_body content_type size filename timestamp with
  | .ok u => .ok u
  | .error _ => .error 500

/-! ### Lemmas about the store -/

/-- Lookup after a dict write: the written key reads the new value, every
other key is unaffected. -/
theorem find?_insert (st : Store) (k : String) (v : Session) (sid : String) :
    find? (insert st k v) sid = if k = sid then some v else find? st sid := by
  induction st with
  | nil => simp [insert, find?]
  | cons kv rest ih =>
      obtain ⟨k', v'⟩ := kv
      simp only [insert]
      by_cases hk : k' = k
      · subst hk
        by_cases hs : k' = sid <;> simp [find?, hs]
      · by_cases hs : k' = sid
        · subst hs
          have hks : ¬ k = k' := fun h => hk h.symm
          simp [find?, hk, hks]
        · simp [find?, hk, hs, ih]

/-- Lookup after a dict deletion: the deleted key reads nothing, every other
key is unaffected. -/
theorem find?_erase (st : Store) (k sid : String) :
    find? (erase st k) sid = if k = sid then none else find? st sid := by
  induction st with
  | nil => simp [erase, find?]
  | cons kv rest ih =>
      obtain ⟨k', v'⟩ := kv
      simp only [erase]
      by_cases hk : k' = k
      · subst hk
        by_cases hs : k' = sid
        · subst hs; simp [ih]
        · simp [find?, hs, ih]
      · by_cases hs : k' = sid
        · subst hs
          have hks : ¬ k = k' := fun h => hk h.symm
          simp [find?, hk, hks]
        · simp [find?, hk, hs, ih]

/-! ### Claim C1 -/

/-- C1 (counterexample): a session generated at time 0 and bound at time 10
is past its 5-minute expiry deadline (300) at time 1000, yet the
authorization resolver still returns its attached identity instead of
Anonymous — the claim that resolve answers Anonymous for every session
whose expiry deadline has passed is false on the code. -/
theorem C1_counterexample :
    (bind_qr_login 10 (generate_qr_code 0 "s" []) "s" "u" "n" "t").1
      = .success ∧
    ((find? (bind_qr_login 10 (generate_qr_code 0 "s" []) "s" "u" "n" "t").2 "s").any
        (fun s => s.expires_at < 1000)) = true ∧
    get_user_from_session
        (bind_qr_login 10 (generate_qr_code 0 "s" []) "s" "u" "n" "t").2 "s"
      = some (.bindInfo "u" "n" "t") := by decide

/-- C1 (amended): the resolver performs no expiry check — for any store and
any token it returns Anonymous exactly when the session is absent, unbound,
or has no attached identity, and otherwise returns the attached identity,
independent of any clock value (the function takes no clock at all). -/
theorem C1_resolve_ignores_expiry (st : Store) (sid : String) :
    (find? st sid = none → get_user_from_session st sid = none) ∧
    (∀ s, find? st sid = some s → s.is_bound = false →
        get_user_from_session st sid = none) ∧
    (∀ s, find? st sid = some s → s.user_info = none →
        get_user_from_session st sid = none) ∧
    (∀ s info, find? st sid = some s → s.is_bound = true →
        s.user_info = some info →
        get_user_from_session st sid = some info) := by
  refine ⟨fun h => ?_, fun s h hb => ?_, fun s h hu => ?_,
    fun s info h hb hu => ?_⟩
  · simp [get_user_from_session, h]
  · simp [get_user_from_session, h, hb]
  · simp [get_user_from_session, h, hu]
  · simp [get_user_from_session, h, hb, hu]

/-- C1 (witness): the amended theorem applied to a one-session store whose
session is bound with an identity attached. -/
theorem C1_resolve_ignores_expiry_witness :
    get_user_from_session
        [("s", ⟨0, 300, true, false, none, some (.bindInfo "u" "n" "t")⟩)] "s"
      = some (.bindInfo "u" "n" "t") :=
  (C1_resolve_ignores_expiry
      [("s", ⟨0, 300, true, false, none, some (.bindInfo "u" "n" "t")⟩)]
      "s").2.2.2
    ⟨0, 300, true, false, none, some (.bindInfo "u" "n" "t")⟩
    (.bindInfo "u" "n" "t") (by decide) rfl rfl

/-! ### Claim C2 -/

/-- C2 (counterexample): binding a session via POST /api/qr-login/bind sets
only `is_bound`, and both polling endpoints test only `is_confirmed`, so an
unexpired, successfully bound session still polls as `waiting` — the claim
that poll reports success as soon as either flag is set is false on the
code. -/
theorem C2_counterexample :
    (bind_qr_login 10 (generate_qr_code 0 "s" []) "s" "u" "n" "t").1
      = .success ∧
    (check_qr_login 20
        (bind_qr_login 10 (generate_qr_code 0 "s" []) "s" "u" "n" "t").2 "s").1
      = .waiting ∧
    (get_qr_login_status 20
        (bind_qr_login 10 (generate_qr_code 0 "s" []) "s" "u" "n" "t").2
        (some "s")).1
      = .waiting := by decide

/-- C2 (amended): for a present, unexpired session both polling endpoints
answer from the `is_confirmed` flag alone and leave the store unchanged
(so every subsequent poll until expiry answers the same): `waiting` while
`is_confirmed` is unset — even when `is_bound` is set, e.g. after a
successful POST bind — and once `is_confirmed` is set, `check` answers
success with the stored doctor id and confirmation time while `status`
answers confirmed with the confirmation time only. -/
theorem C2_poll_reads_confirmed_only (st : Store) (sid : String) (s : Session)
    (now : Nat) (hsid : sid ≠ "") (hf : find? st sid = some s)
    (hexp : ¬ s.expires_at < now) :
    (s.is_confirmed = false →
        check_qr_login now st sid = (.waiting, st) ∧
        get_qr_login_status now st (some sid) = (.waiting, st)) ∧
    (s.is_confirmed = true →
        check_qr_login now st sid
          = (.success (doctorIdOf s.user_info) (s.confirmed_at.getD now), st) ∧
        get_qr_login_status now st (some sid)
          = (.confirmed (s.confirmed_at.getD now), st)) := by
  constructor <;> intro hc <;>
    simp [check_qr_login, get_qr_login_status, hf, hsid, hexp, hc]

/-- C2 (witness): the amended theorem applied to a bound, unconfirmed,
unexpired session: both polls answer waiting and keep the store. -/
theorem C2_poll_reads_confirmed_only_witness :
    check_qr_login 20
        [("s", ⟨0, 300, true, false, none, some (.bindInfo "u" "n" "t")⟩)] "s"
      = (.waiting,
         [("s", ⟨0, 300, true, false, none, some (.bindInfo "u" "n" "t")⟩)]) ∧
    get_qr_login_status 20
        [("s", ⟨0, 300, true, false, none, some (.bindInfo "u" "n" "t")⟩)]
        (some "s")
      = (.waiting,
         [("s", ⟨0, 300, true, false, none, some (.bindInfo "u" "n" "t")⟩)]) :=
  (C2_poll_reads_confirmed_only
      [("s", ⟨0, 300, true, false, none, some (.bindInfo "u" "n" "t")⟩)] "s"
      ⟨0, 300, true, false, none, some (.bindInfo "u" "n" "t")⟩ 20
      (by decide) (by decide) (by decide)).1 rfl

/-! ### Claim C3 -/

/-- C3 (counterexample): the expiry test in every handler is strict
(`datetime.now() > expires_at`), so at `now = expiry` — an instant at which
the claim's `now >= expiry` condition demands eviction and a 410 — a poll
still answers `waiting` and leaves the session in the store. -/
theorem C3_counterexample :
    ((find? (generate_qr_code 0 "s" []) "s").any
        (fun s => 300 ≥ s.expires_at)) = true ∧
    check_qr_login 300 (generate_qr_code 0 "s" []) "s"
      = (.waiting, generate_qr_code 0 "s" []) := by decide

/-- C3 (amended): for every session strictly past its expiry (now > expiry),
the next access through check, status, bind or confirm evicts the record
and reports Expired (410); after that eviction each of these operations
reports NotFound (404) for the session id, at any time. -/
theorem C3_strict_expiry_evicts (st : Store) (sid : String) (s : Session)
    (now : Nat) (u n t d : String) (hsid : sid ≠ "")
    (hf : find? st sid = some s) (hexp : s.expires_at < now) :
    check_qr_login now st sid = (.expired, erase st sid) ∧
    get_qr_login_status now st (some sid) = (.expired, erase st sid) ∧
    bind_qr_login now st sid u n t = (.expired, erase st sid) ∧
    confirm_qr_login now st sid d = (.expired, erase st sid) ∧
    (∀ now2, (check_qr_login now2 (erase st sid) sid).1 = .notFound ∧
        (get_qr_login_status now2 (erase st sid) (some sid)).1 = .notFound ∧
        (bind_qr_login now2 (erase st sid) sid u n t).1 = .notFound ∧
        (confirm_qr_login now2 (erase st sid) sid d).1 = .notFound) := by
  have he : find? (erase st sid) sid = none := by rw [find?_erase]; simp
  refine ⟨?_, ?_, ?_, ?_, fun now2 => ⟨?_, ?_, ?_, ?_⟩⟩ <;>
    simp [check_qr_login, get_qr_login_status, bind_qr_login,
      confirm_qr_login, hf, hsid, hexp, he]

/-- C3 (witness): a session generated at time 0 polled at time 301 is
evicted with Expired, and a later check of the evicted id is NotFound. -/
theorem C3_strict_expiry_evicts_witness :
    (check_qr_login 301 (generate_qr_code 0 "s" []) "s").1
      = CheckResult.expired ∧
    (check_qr_login 999 (erase (generate_qr_code 0 "s" []) "s") "s").1
      = CheckResult.notFound := by
  have h := C3_strict_expiry_evicts (generate_qr_code 0 "s" []) "s"
    ⟨0, 300, false, false, none, none⟩ 301 "u" "n" "t" "d" (by decide)
    (by decide) (by decide)
  exact ⟨by rw [h.1], (h.2.2.2.2 999).1⟩

/-! ### Claim C4 -/

/-- C4: the SQL UPDATE of a suggestion never touches the owner column —
after any update call every stored row keeps its id and its user_id — and
an update or delete whose caller identity carries a user_id different from
the record's owner answers Forbidden (403) with the table unchanged. -/
theorem C4_owner_immutable_and_forbidden (db : List Suggestion) (u : UserInfo)
    (sid : Nat) (title content author : String) (tag : Option String)
    (image : Option ImageFile) (pt ts ip : String) :
    ((update_health_suggestion db (some u) sid title content author tag image
          pt ts ip).2.map (fun r => (r.id, r.user_id))
        = db.map (fun r => (r.id, r.user_id))) ∧
    (∀ row uid, db.find? (fun r => r.id = sid) = some row →
        userIdOf u = some uid → row.user_id ≠ some uid →
        update_health_suggestion db (some u) sid title content author tag image
            pt ts ip = (.error 403, db) ∧
        delete_health_suggestion db (some u) sid = (.error 403, db)) := by
  constructor
  · unfold update_health_suggestion
    cases hf : db.find? (fun r => r.id = sid) with
    | none => simp
    | some row =>
        cases hu : userIdOf u with
        | none => simp [hu]
        | some uid =>
            simp only [hu]
            by_cases hne : some uid ≠ row.user_id
            · rw [if_pos hne]
            · rw [if_neg hne]
              dsimp only
              rw [List.map_map]
              apply List.map_congr_left
              intro r _
              by_cases h : r.id = sid <;> simp [h]
  · intro row uid hf hu hne
    have hne' : some uid ≠ row.user_id := fun h => hne h.symm
    constructor
    · simp [update_health_suggestion, hf, hu, hne']
    · simp [delete_health_suggestion, hf, hu, hne']

/-- C4 (witness): a caller whose user_id is "other" is refused a delete of a
row owned by "owner" with the table intact. -/
theorem C4_owner_immutable_and_forbidden_witness :
    delete_health_suggestion
        [⟨1, "t", "c", "a", none, none, "p", some "owner", "ip"⟩]
        (some (.bindInfo "other" "n" "tok")) 1
      = (.error 403,
         [⟨1, "t", "c", "a", none, none, "p", some "owner", "ip"⟩]) :=
  ((C4_owner_immutable_and_forbidden
      [⟨1, "t", "c", "a", none, none, "p", some "owner", "ip"⟩]
      (.bindInfo "other" "n" "tok") 1 "t2" "c2" "a2" none none "p2" "ts"
      "ip2").2
    ⟨1, "t", "c", "a", none, none, "p", some "owner", "ip"⟩ "other"
    (by decide) rfl (by decide)).2

/-! ### Claim C5 -/

/-- C5: on a present session that is unbound and unexpired at the first
call, bind succeeds and attaches the supplied identity; a second bind
before expiry answers AlreadyBound (400) and leaves the store — hence the
identity attached by the first bind — unchanged. -/
theorem C5_bind_twice (st : Store) (sid : String) (s : Session)
    (now1 now2 : Nat) (u1 n1 t1 u2 n2 t2 : String)
    (hf : find? st sid = some s) (hb : s.is_bound = false)
    (h1 : ¬ s.expires_at < now1) (h2 : ¬ s.expires_at < now2) :
    bind_qr_login now1 st sid u1 n1 t1
      = (.success, insert st sid
          { s with is_bound := true,
                   user_info := some (.bindInfo u1 n1 t1) }) ∧
    find? (insert st sid
        { s with is_bound := true,
                 user_info := some (.bindInfo u1 n1 t1) }) sid
      = some { s with is_bound := true,
                      user_info := some (.bindInfo u1 n1 t1) } ∧
    bind_qr_login now2 (insert st sid
        { s with is_bound := true,
                 user_info := some (.bindInfo u1 n1 t1) }) sid u2 n2 t2
      = (.alreadyBound, insert st sid
          { s with is_bound := true,
                   user_info := some (.bindInfo u1 n1 t1) }) := by
  have hfi := find?_insert st sid
    { s with is_bound := true, user_info := some (.bindInfo u1 n1 t1) } sid
  simp only [if_pos rfl] at hfi
  refine ⟨?_, hfi, ?_⟩
  · simp [bind_qr_login, hf, h1, hb]
  · simp [bind_qr_login, hfi, h2]

/-- C5 (witness): binding a freshly generated session at times 10 and 20. -/
theorem C5_bind_twice_witness :
    bind_qr_login 20
        (insert (generate_qr_code 0 "s" []) "s"
          ⟨0, 300, true, false, none, some (.bindInfo "u1" "n1" "t1")⟩)
        "s" "u2" "n2" "t2"
      = (.alreadyBound,
         insert (generate_qr_code 0 "s" []) "s"
           ⟨0, 300, true, false, none, some (.bindInfo "u1" "n1" "t1")⟩) :=
  (C5_bind_twice (generate_qr_code 0 "s" []) "s"
    ⟨0, 300, false, false, none, none⟩ 10 20 "u1" "n1" "t1" "u2" "n2" "t2"
    (by decide) rfl (by decide) (by decide)).2.2

/-! ### Claim C6 -/

/-- C6: with any non-anonymous caller, a create whose title, content or
author is empty or whitespace-only answers ValidationError (400) and the
table is returned unchanged — nothing is inserted. -/
theorem C6_blank_create_rejected (db : List Suggestion) (u : UserInfo)
    (title content author : String) (tag : Option String)
    (image : Option ImageFile) (newId : Nat) (pt ts ip : String)
    (hblank : pyStrip title = "" ∨ pyStrip content = "" ∨ pyStrip author = "") :
    create_health_suggestion db (some u) title content author tag image newId
        pt ts ip = (.error 400, db) := by
  unfold create_health_suggestion
  rcases hblank with h | h | h
  · simp [h]
  · rcases eq_or_ne (pyStrip title) "" with ht | ht
    · simp [ht]
    · have ht' : title ≠ "" := fun e => ht (by rw [e]; rfl)
      simp [ht, ht', h]
  · rcases eq_or_ne (pyStrip title) "" with ht | ht
    · simp [ht]
    · have ht' : title ≠ "" := fun e => ht (by rw [e]; rfl)
      rcases eq_or_ne (pyStrip content) "" with hc | hc
      · simp [ht, ht', hc]
      · have hc' : content ≠ "" := fun e => hc (by rw [e]; rfl)
        simp [ht, ht', hc, hc', h]

/-- C6 (witness): a whitespace-only title is rejected with 400 and the
empty table stays empty. -/
theorem C6_blank_create_rejected_witness :
    create_health_suggestion [] (some (.bindInfo "u" "n" "t")) " \t" "c" "a"
        none none 1 "p" "ts" "ip" = (.error 400, []) :=
  C6_blank_create_rejected [] (.bindInfo "u" "n" "t") " \t" "c" "a" none none
    1 "p" "ts" "ip" (Or.inl (by decide))

/-! ### Claim C7 -/

/-- C7: the upload handler's own raises do carry the distinct statuses the
claim demands — 400 for a non-image declared type, 413 for an oversize
file — but the handler's blanket `except Exception` (and `HTTPException`
is an `Exception` subclass, with no prior `except HTTPException: raise` as
the sibling create handler has) converts both into a 500 before they reach
the caller: every rejection surfaces as a 500. -/
theorem C7_upload_rejections_become_500 :
    upload_image_body "text/plain" (some 100) (some "a.txt") "ts"
      = .error 400 ∧
    upload_image_body "image/png" (some (10 * 1024 * 1024 + 1)) (some "a.png")
        "ts" = .error 413 ∧
    upload_image "text/plain" (some 100) (some "a.txt") "ts" = .error 500 ∧
    upload_image "image/png" (some (10 * 1024 * 1024 + 1)) (some "a.png") "ts"
      = .error 500 := by decide

/-! ### Claim C8 -/

/-- Overwriting the same dict key twice keeps only the second write. -/
theorem insert_insert (st : Store) (k : String) (v w : Session) :
    insert (insert st k v) k w = insert st k w := by
  induction st with
  | nil => simp [insert]
  | cons kv rest ih =>
      obtain ⟨k', v'⟩ := kv
      by_cases hk : k' = k
      · subst hk; simp [insert]
      · simp [insert, hk, ih]

/-- C8: confirm is not idempotent — on a present, unexpired session every
confirm call succeeds and overwrites the identity payload and the
confirmation timestamp with the values of that call, so after two confirms
the session holds the doctor id and timestamp of the second call. -/
theorem C8_confirm_overwrites (st : Store) (sid : String) (s : Session)
    (now1 now2 : Nat) (d1 d2 : String) (hf : find? st sid = some s)
    (h1 : ¬ s.expires_at < now1) (h2 : ¬ s.expires_at < now2) :
    confirm_qr_login now1 st sid d1
      = (.success d1, insert st sid
          { s with is_confirmed := true, confirmed_at := some now1,
                   is_bound := true,
                   user_info := some (.confirmInfo d1 now1) }) ∧
    confirm_qr_login now2
        (insert st sid
          { s with is_confirmed := true, confirmed_at := some now1,
                   is_bound := true,
                   user_info := some (.confirmInfo d1 now1) }) sid d2
      = (.success d2, insert st sid
          { s with is_confirmed := true, confirmed_at := some now2,
                   is_bound := true,
                   user_info := some (.confirmInfo d2 now2) }) ∧
    find? (insert st sid
        { s with is_confirmed := true, confirmed_at := some now2,
                 is_bound := true,
                 user_info := some (.confirmInfo d2 now2) }) sid
      = some { s with is_confirmed := true, confirmed_at := some now2,
                      is_bound := true,
                      user_info := some (.confirmInfo d2 now2) } := by
  have hfi := find?_insert st sid
    { s with is_confirmed := true, confirmed_at := some now1,
             is_bound := true, user_info := some (.confirmInfo d1 now1) } sid
  rw [if_pos rfl] at hfi
  have hfi2 := find?_insert st sid
    { s with is_confirmed := true, confirmed_at := some now2,
             is_bound := true, user_info := some (.confirmInfo d2 now2) } sid
  rw [if_pos rfl] at hfi2
  refine ⟨?_, ?_, hfi2⟩
  · simp [confirm_qr_login, hf, h1]
  · simp [confirm_qr_login, hfi, h2, insert_insert]

/-- C8 (witness): two confirms at times 10 and 20 on a session generated at
time 0 leave the payload and timestamp of the second call. -/
theorem C8_confirm_overwrites_witness :
    find? (insert (generate_qr_code 0 "s" []) "s"
        ⟨0, 300, true, true, some 20, some (.confirmInfo "d2" 20)⟩) "s"
      = some ⟨0, 300, true, true, some 20, some (.confirmInfo "d2" 20)⟩ :=
  (C8_confirm_overwrites (generate_qr_code 0 "s" []) "s"
    ⟨0, 300, false, false, none, none⟩ 10 20 "d1" "d2" (by decide)
    (by decide) (by decide)).2.2

/-! ### Claim C9 -/

/-- Lone `%` pattern: LIKE-matches every string. -/
theorem likeMatch_percent (s : List Char) : likeMatch ['%'] s = true := by
  simp only [likeMatch, List.any_eq_true]
  refine ⟨s.length, by simp, ?_⟩
  simp [likeMatch]

/-- Empty keyword: `LIKE '%%'` matches every string. -/
theorem likeSub_empty (f : String) : likeSub "" f = true := by
  have hempty : ("" : String).data = [] := rfl
  simp only [likeSub, hempty, List.nil_append]
  simp only [likeMatch, List.any_eq_true]
  refine ⟨0, by simp, ?_⟩
  refine ⟨f.data.length, by simp, ?_⟩
  simp

/-- Empty keyword: the WHERE clause holds for every row (`title` is a
NOT NULL column, so its LIKE alone carries the disjunction). -/
theorem rowMatches_empty (r : Suggestion) : rowMatches "" r = true := by
  simp [rowMatches, likeSub_empty]

/-- C9 (counterexample): SQL LIKE is not plain substring occurrence — the
keyword "_" (a LIKE single-character wildcard) selects a row none of whose
fields contain an underscore, and the keyword "A" selects a row whose
fields are all lowercase (default LIKE is ASCII-case-insensitive); the tag
of the row is NULL, so no field contains either keyword. -/
theorem C9_counterexample :
    search_health_suggestions
        [⟨1, "ab", "cd", "ef", none, none, "p", none, "i"⟩] "_"
      = [⟨1, "ab", "cd", "ef", none, none, "p", none, "i"⟩] ∧
    substrOccurs "_" "ab" = false ∧ substrOccurs "_" "cd" = false ∧
    substrOccurs "_" "ef" = false ∧
    search_health_suggestions
        [⟨1, "ab", "cd", "ef", none, none, "p", none, "i"⟩] "A"
      = [⟨1, "ab", "cd", "ef", none, none, "p", none, "i"⟩] ∧
    substrOccurs "A" "ab" = false ∧ substrOccurs "A" "cd" = false ∧
    substrOccurs "A" "ef" = false := by decide

/-- C9 (amended): search returns exactly the rows whose title, content,
author or tag matches the keyword under SQL LIKE semantics (`%` matches
any run, `_` any single character, other characters up to ASCII case; a
NULL tag never matches), as a permutation of the filtered table ordered
newest-first by id, and the empty keyword matches every row. -/
theorem C9_search_like (db : List Suggestion) (kw : String) :
    (∀ r, r ∈ search_health_suggestions db kw
        ↔ r ∈ db ∧ rowMatches kw r = true) ∧
    List.Perm (search_health_suggestions db kw) (db.filter (rowMatches kw)) ∧
    List.Sorted newerFirst (search_health_suggestions db kw) ∧
    (∀ r, r ∈ search_health_suggestions db "" ↔ r ∈ db) := by
  have hperm : ∀ k, List.Perm (search_health_suggestions db k)
      (db.filter (rowMatches k)) :=
    fun k => List.perm_insertionSort newerFirst (db.filter (rowMatches k))
  refine ⟨fun r => ?_, hperm kw,
    List.sorted_insertionSort newerFirst (db.filter (rowMatches kw)),
    fun r => ?_⟩
  · rw [(hperm kw).mem_iff, List.mem_filter]
  · rw [(hperm "").mem_iff, List.mem_filter]
    exact ⟨fun h => h.1, fun h => ⟨h, rowMatches_empty r⟩⟩

/-- C9 (witness): the amended membership characterization instantiated on a
one-row table and a keyword occurring in the tag field only. -/
theorem C9_search_like_witness :
    (⟨1, "ab", "cd", "ef", some "xtagx", none, "p", none, "i"⟩ : Suggestion)
      ∈ search_health_suggestions
          [⟨1, "ab", "cd", "ef", some "xtagx", none, "p", none, "i"⟩]
          "tag" :=
  ((C9_search_like
        [⟨1, "ab", "cd", "ef", some "xtagx", none, "p", none, "i"⟩]
        "tag").1 _).mpr ⟨by simp, by decide⟩

/-! ### Claim C10 -/

/-- Stores reachable from the empty `qr_sessions` dict through the handlers
that touch it. -/
inductive Reachable : Store → Prop
  | init : Reachable []
  | generate (now : Nat) (sid : String) {st : Store} :
      Reachable st → Reachable (generate_qr_code now sid st)
  | page (now : Nat) (loginId : String) {st : Store} :
      Reachable st → Reachable (confirm_login_page now st loginId).2
  | check (now : Nat) (uuid : String) {st : Store} :
      Reachable st → Reachable (check_qr_login now st uuid).2
  | status (now : Nat) (loginId : Option String) {st : Store} :
      Reachable st → Reachable (get_qr_login_status now st loginId).2
  | bind (now : Nat) (sid u n t : String) {st : Store} :
      Reachable st → Reachable (bind_qr_login now st sid u n t).2
  | confirm (now : Nat) (sid d : String) {st : Store} :
      Reachable st → Reachable (confirm_qr_login now st sid d).2

/-- Auxiliary invariant: every stored session with `is_confirmed` set also
has `is_bound` set. -/
def ConfImpBound (st : Store) : Prop :=
  ∀ sid s, find? st sid = some s → s.is_confirmed = true → s.is_bound = true

/-- Preservation of the invariant by a dict write whose value satisfies
it. -/
theorem confImpBound_insert {st : Store} (h : ConfImpBound st) {k : String}
    {v : Session} (hv : v.is_confirmed = true → v.is_bound = true) :
    ConfImpBound (insert st k v) := by
  intro sid s hf hc
  rw [find?_insert] at hf
  by_cases hk : k = sid
  · rw [if_pos hk] at hf
    obtain rfl := Option.some.inj hf
    exact hv hc
  · rw [if_neg hk] at hf
    exact h sid s hf hc

/-- Preservation of the invariant by a dict deletion. -/
theorem confImpBound_erase {st : Store} (h : ConfImpBound st) (k : String) :
    ConfImpBound (erase st k) := by
  intro sid s hf hc
  rw [find?_erase] at hf
  by_cases hk : k = sid
  · rw [if_pos hk] at hf; exact Option.noConfusion hf
  · rw [if_neg hk] at hf
    exact h sid s hf hc

/-- The confirmed-implies-bound invariant holds in every reachable store:
generate writes both flags false, bind and the confirm page set `is_bound`,
confirm sets both, and polling only evicts. -/
theorem reachable_confImpBound {st : Store} (h : Reachable st) :
    ConfImpBound st := by
  induction h with
  | init => intro sid s hf; simp [find?] at hf
  | generate now sid hr ih =>
      exact confImpBound_insert ih (by intro hc; simp at hc)
  | page now loginId hr ih =>
      rename_i st
      cases hf : find? st loginId with
      | none =>
          have hst : (confirm_login_page now st loginId).2 = st := by
            simp [confirm_login_page, hf]
          rw [hst]; exact ih
      | some s =>
          by_cases hexp : s.expires_at < now
          · have hst : (confirm_login_page now st loginId).2
                = erase st loginId := by
              simp [confirm_login_page, hf, hexp]
            rw [hst]; exact confImpBound_erase ih loginId
          · have hst : (confirm_login_page now st loginId).2
                = insert st loginId
                    { s with is_bound := true,
                             user_info := some (.pageInfo
                               ("user_" ++ loginId.take 8)
                               ("医生_" ++ loginId.take 8)
                               ("token_" ++ loginId)) } := by
              simp [confirm_login_page, hf, hexp]
            rw [hst]; exact confImpBound_insert ih (fun _ => rfl)
  | check now uuid hr ih =>
      rename_i st
      cases hf : find? st uuid with
      | none =>
          have hst : (check_qr_login now st uuid).2 = st := by
            simp [check_qr_login, hf]
          rw [hst]; exact ih
      | some s =>
          by_cases hexp : s.expires_at < now
          · have hst : (check_qr_login now st uuid).2 = erase st uuid := by
              simp [check_qr_login, hf, hexp]
            rw [hst]; exact confImpBound_erase ih uuid
          · have hst : (check_qr_login now st uuid).2 = st := by
              by_cases hc : s.is_confirmed <;>
                simp [check_qr_login, hf, hexp, hc]
            rw [hst]; exact ih
  | status now loginId hr ih =>
      rename_i st
      cases loginId with
      | none => exact ih
      | some lid =>
          by_cases hlid : lid = ""
          · have hst : (get_qr_login_status now st (some lid)).2 = st := by
              simp [get_qr_login_status, hlid]
            rw [hst]; exact ih
          · cases hf : find? st lid with
            | none =>
                have hst : (get_qr_login_status now st (some lid)).2 = st := by
                  simp [get_qr_login_status, hlid, hf]
                rw [hst]; exact ih
            | some s =>
                by_cases hexp : s.expires_at < now
                · have hst : (get_qr_login_status now st (some lid)).2
                      = erase st lid := by
                    simp [get_qr_login_status, hlid, hf, hexp]
                  rw [hst]; exact confImpBound_erase ih lid
                · have hst : (get_qr_login_status now st (some lid)).2
                      = st := by
                    by_cases hc : s.is_confirmed <;>
                      simp [get_qr_login_status, hlid, hf, hexp, hc]
                  rw [hst]; exact ih
  | bind now sid u n t hr ih =>
      rename_i st
      cases hf : find? st sid with
      | none =>
          have hst : (bind_qr_login now st sid u n t).2 = st := by
            simp [bind_qr_login, hf]
          rw [hst]; exact ih
      | some s =>
          by_cases hexp : s.expires_at < now
          · have hst : (bind_qr_login now st sid u n t).2 = erase st sid := by
              simp [bind_qr_login, hf, hexp]
            rw [hst]; exact confImpBound_erase ih sid
          · by_cases hb : s.is_bound
            · have hst : (bind_qr_login now st sid u n t).2 = st := by
                simp [bind_qr_login, hf, hexp, hb]
              rw [hst]; exact ih
            · have hst : (bind_qr_login now st sid u n t).2
                  = insert st sid
                      { s with is_bound := true,
                               user_info := some (.bindInfo u n t) } := by
                simp [bind_qr_login, hf, hexp, hb]
              rw [hst]; exact confImpBound_insert ih (fun _ => rfl)
  | confirm now sid d hr ih =>
      rename_i st
      cases hf : find? st sid with
      | none =>
          have hst : (confirm_qr_login now st sid d).2 = st := by
            simp [confirm_qr_login, hf]
          rw [hst]; exact ih
      | some s =>
          by_cases hexp : s.expires_at < now
          · have hst : (confirm_qr_login now st sid d).2 = erase st sid := by
              simp [confirm_qr_login, hf, hexp]
            rw [hst]; exact confImpBound_erase ih sid
          · have hst : (confirm_qr_login now st sid d).2
                = insert st sid
                    { s with is_confirmed := true, confirmed_at := some now,
                             is_bound := true,
                             user_info := some (.confirmInfo d now) } := by
              simp [confirm_qr_login, hf, hexp]
            rw [hst]; exact confImpBound_insert ih (fun _ => rfl)

/-- C10: in every reachable store a session with the confirmed flag set
also has the bound flag set (confirm sets both), and consequently on a
present, unexpired session a bind issued right after a confirm — with no
prior bind call — is rejected with AlreadyBound (400). -/
theorem C10_confirmed_implies_bound {st : Store} (h : Reachable st) :
    (∀ sid s, find? st sid = some s → s.is_confirmed = true →
        s.is_bound = true) ∧
    (∀ now1 now2 sid d u n t s, find? st sid = some s →
        ¬ s.expires_at < now1 → ¬ s.expires_at < now2 →
        (bind_qr_login now2 (confirm_qr_login now1 st sid d).2 sid u n t).1
          = .alreadyBound) := by
  refine ⟨reachable_confImpBound h,
    fun now1 now2 sid d u n t s hf h1 h2 => ?_⟩
  have hfi := find?_insert st sid
    { s with is_confirmed := true, confirmed_at := some now1,
             is_bound := true, user_info := some (.confirmInfo d now1) } sid
  rw [if_pos rfl] at hfi
  simp [confirm_qr_login, hf, h1, bind_qr_login, hfi, h2]

/-- C10 (witness): generate, confirm at time 10, then bind at time 20 —
the bind is refused AlreadyBound although bind was never called before. -/
theorem C10_confirmed_implies_bound_witness :
    (bind_qr_login 20
        (confirm_qr_login 10 (generate_qr_code 0 "s" []) "s" "d").2
        "s" "u" "n" "t").1 = BindResult.alreadyBound :=
  (C10_confirmed_implies_bound (Reachable.generate 0 "s" Reachable.init)).2
    10 20 "s" "d" "u" "n" "t" ⟨0, 300, false, false, none, none⟩
    (by decide) (by decide) (by decide)

end SX
